import Mathlib

/-!
Verification model of `src/get_recent_customers.py`, a four-stage CSV
pipeline (read → validate → filter → write) built on pandas and pydantic.

The embedding follows the source closely:

* Python `datetime` values (timezone-naive, as produced by this pipeline's
  `datetime.strptime` / `datetime.now()` calls) are modelled by `DateTime`:
  a calendar date plus a time-of-day in microseconds, compared
  lexicographically exactly as Python compares naive datetimes.
* `datetime.strptime(value, '%Y-%m-%d')` is modelled by `strptimeL` over
  the list of character codes, reproducing CPython's `_strptime` regexes
  `%Y ↦ \d{4}`, `%m ↦ 1[0-2]|0[1-9]|[1-9]`, `%d ↦ 3[01]|[12]\d|0[1-9]|[1-9]`
  (so one-digit months/days are accepted), the requirement that the whole
  string is consumed, and the `datetime` constructor's range checks.
* `pd.DateOffset(years=1)` subtraction is modelled by `one_year_ago`:
  decrement the year, clamp the day to the target month's length
  (Feb 29 → Feb 28), keep the time of day.
* `df.to_csv` formats the `signup_date` column at column level: a
  timezone-naive column whose values are all midnight is written with
  the dates-only `%Y-%m-%d` format, otherwise cells are full
  `str(...)` timestamps (`renderCsv`/`rowLine`).
* pydantic's lax epoch coercion of numeric `signup_date` cells to
  timezone-aware UTC datetimes, and Python's refusal to compare naive
  with aware datetimes, are modelled by the timezone-aware layer
  (`PyDateTime`, `validateRowTz`, `filterKeepTz`).
-/

/-- Timezone-naive Python `datetime` (a wall clock): calendar date plus
time of day in microseconds (`0 ≤ usec < 86400000000`; dates parsed
from `YYYY-MM-DD` strings have `usec = 0`).  Possibly timezone-aware
values are modelled by `PyDateTime` further below. -/
structure DateTime where
  year : Nat
  month : Nat
  day : Nat
  usec : Nat
deriving DecidableEq, Repr

/-- Gregorian leap-year rule, as in Python's `calendar`/`datetime`. -/
def isLeap (y : Nat) : Bool :=
  y % 4 = 0 && (y % 100 != 0 || y % 400 = 0)

/-- Length of a month, as in Python's `datetime`. -/
def daysInMonth (y m : Nat) : Nat :=
  if m = 2 then (if isLeap y then 29 else 28)
  else if m = 4 ∨ m = 6 ∨ m = 9 ∨ m = 11 then 30
  else 31

/-- Python's comparison of naive datetimes: lexicographic on
(year, month, day, time-of-day).  This is the `>=` used by
`item.signup_date >= one_year_ago` in the source (Boolean, source side). -/
def dtLe (a b : DateTime) : Bool :=
  if a.year ≠ b.year then decide (a.year < b.year)
  else if a.month ≠ b.month then decide (a.month < b.month)
  else if a.day ≠ b.day then decide (a.day < b.day)
  else decide (a.usec ≤ b.usec)

/-- Specification-side chronological order on datetimes ("signup_date is
greater than or equal to now − 1 year"), stated as a proposition. -/
def DTle (a b : DateTime) : Prop :=
  a.year < b.year ∨
    (a.year = b.year ∧
      (a.month < b.month ∨
        (a.month = b.month ∧
          (a.day < b.day ∨ (a.day = b.day ∧ a.usec ≤ b.usec)))))

instance (a b : DateTime) : Decidable (DTle a b) := by
  unfold DTle; exact inferInstance

/-- Model of `datetime.now() - pd.DateOffset(years=1)`: pandas decrements
the year, clamps the day to the length of the resulting month
(e.g. `2024-02-29 − 1 year = 2023-02-28`), and keeps the time of day. -/
def one_year_ago (now : DateTime) : DateTime :=
  let y := now.year - 1
  ⟨y, now.month, min now.day (daysInMonth y now.month), now.usec⟩

/-! ## Model of `datetime.strptime(value, '%Y-%m-%d')`

CPython compiles the format to the regex
`(?P<Y>\d\d\d\d)-(?P<m>1[0-2]|0[1-9]|[1-9])-(?P<d>3[01]|[12]\d|0[1-9]|[1-9])`,
requires it to consume the whole string, and then calls the `datetime`
constructor, which additionally requires `1 ≤ year` and
`day ≤ daysInMonth year month`.  We work over the list of character
codes (45 = '-', 48..57 = '0'..'9'). -/

/-- Character code of a decimal digit? (48 = '0' .. 57 = '9'). -/
def isDig (c : Nat) : Prop := 48 ≤ c ∧ c ≤ 57

instance (c : Nat) : Decidable (isDig c) := by
  unfold isDig; exact inferInstance

/-- Day field of the `%d` regex `3[01]|[12]\d|0[1-9]|[1-9]` followed by
end of input.  The one-character alternative can only succeed when it is
the last character, so no other backtracking is observable. -/
def dayEnd : List Nat → Option Nat
  | [c] => if 49 ≤ c ∧ c ≤ 57 then some (c - 48) else none
  | [c1, c2] =>
      if c1 = 51 ∧ (c2 = 48 ∨ c2 = 49) then some (30 + (c2 - 48))
      else if (c1 = 49 ∨ c1 = 50) ∧ isDig c2 then some (10 * (c1 - 48) + (c2 - 48))
      else if c1 = 48 ∧ 49 ≤ c2 ∧ c2 ≤ 57 then some (c2 - 48)
      else none
  | _ => none

/-- Month field of the `%m` regex `1[0-2]|0[1-9]|[1-9]`, followed by the
literal `-`, the day field and end of input.  When the two-character
alternative `1[0-2]` matches but the following literal `-` does not, the
regex engine backtracks to the one-character month `1`, which then
requires the second character itself to be `-`. -/
def monthDashDayEnd : List Nat → Option (Nat × Nat)
  | 49 :: c :: rest =>
      if 48 ≤ c ∧ c ≤ 50 then
        match rest with
        | 45 :: r => (dayEnd r).map (fun d => (10 + (c - 48), d))
        | _ => none
      else if c = 45 then (dayEnd rest).map (fun d => (1, d))
      else none
  | 48 :: c :: rest =>
      if 49 ≤ c ∧ c ≤ 57 then
        match rest with
        | 45 :: r => (dayEnd r).map (fun d => (c - 48, d))
        | _ => none
      else none
  | c :: 45 :: rest =>
      if 50 ≤ c ∧ c ≤ 57 then (dayEnd rest).map (fun d => (c - 48, d))
      else none
  | _ => none

/-- Model of `datetime.strptime(s, '%Y-%m-%d')` on the character codes of
`s`: exactly four digits of year, a `-`, then month/day as above; finally
the `datetime` constructor checks `1 ≤ year` and that the day exists in
the month.  Returns the parsed datetime (midnight) or `none` for the
`ValueError` the Python call raises. -/
def strptimeL (l : List Nat) : Option DateTime :=
  match l with
  | a :: b :: c :: d :: 45 :: rest =>
      if isDig a ∧ isDig b ∧ isDig c ∧ isDig d then
        match monthDashDayEnd rest with
        | some (m, dy) =>
            let y := 1000 * (a - 48) + 100 * (b - 48) + 10 * (c - 48) + (d - 48)
            if 1 ≤ y ∧ dy ≤ daysInMonth y m then some ⟨y, m, dy, 0⟩ else none
        | none => none
      else none
  | _ => none

/-- Character codes of a string. -/
def toCodes (s : String) : List Nat := s.toList.map Char.toNat

/-- The `isinstance(value, str)` branch of `parse_signup_date`:
`datetime.strptime(value, '%Y-%m-%d')`. -/
def parseSignupDateStr (s : String) : Option DateTime := strptimeL (toCodes s)

/-- Specification-side reading of "the value matches the format
`YYYY-MM-DD`" (spec §4.2 / testable property 4): exactly ten characters,
four year digits, zero-padded two-digit month and day separated by `-`,
denoting a real calendar date.  Compare with `strptimeL`, the model of
what the source actually runs. -/
def readStrict (l : List Nat) : Option DateTime :=
  match l with
  | [a, b, c, d, 45, e, f, 45, g, h] =>
      if isDig a ∧ isDig b ∧ isDig c ∧ isDig d ∧ isDig e ∧ isDig f ∧ isDig g ∧ isDig h then
        let y := 1000 * (a - 48) + 100 * (b - 48) + 10 * (c - 48) + (d - 48)
        let m := 10 * (e - 48) + (f - 48)
        let dy := 10 * (g - 48) + (h - 48)
        if 1 ≤ y ∧ 1 ≤ m ∧ m ≤ 12 ∧ 1 ≤ dy ∧ dy ≤ daysInMonth y m then
          some ⟨y, m, dy, 0⟩
        else none
      else none
  | _ => none

/-- Boolean form of "the string matches the exact format `YYYY-MM-DD`". -/
def matchesYYYYMMDD (s : String) : Bool := (readStrict (toCodes s)).isSome

/-! ## Data model: raw rows and validated customer records

`read_csv_file` loads the CSV with `pd.read_csv`; `df.to_dict('records')`
then yields one mapping per row.  A cell is a string, an integer (pandas
infers numeric columns), or NaN (an empty cell); a column missing from
the file is a missing key.  `RawValue.rdate` covers callers that hand the
validator an already-structured date/time value (pydantic accepts a
`datetime` for the `signup_date` field unchanged; the `mode='before'`
validator only intercepts strings).  In pydantic's lax mode a *numeric*
`signup_date` — which `pd.read_csv` produces for an all-numeric column —
is additionally coerced through a Unix-epoch rule to a timezone-*aware*
UTC value.  The validator in this section is the naive-valued
restriction used by the string-path claims: it has no naive image for
that case and maps it to a validation error.  The complete coercion,
including the aware case, is `parse_signup_date_full`/`validateRowTz`
in the timezone-aware layer below; `validateRowTz_agrees` relates the
two. -/

/-- One cell of a raw row. -/
inductive RawValue where
  | rint (n : Int)
  | rstr (s : String)
  | rnan
  | rdate (dt : DateTime)
deriving DecidableEq, Repr

/-- One raw row, as produced by `df.to_dict(orient='records')`: the four
columns the validator reads (absent key = `none`) plus any extra columns,
which pydantic's default `extra='ignore'` configuration never looks at. -/
structure RawRow where
  customer_id : Option RawValue
  name : Option RawValue
  signup_date : Option RawValue
  country : Option RawValue
  extras : List (String × RawValue)
deriving DecidableEq, Repr

/-- The validated `CustomerData` pydantic model (its `.dict()` image). -/
structure CustomerData where
  customer_id : Int
  name : String
  signup_date : DateTime
  country : String
deriving DecidableEq, Repr

/-- A pydantic `ValidationError`, reduced to what the claims inspect:
which field failed, and whether it was missing or had an invalid value.
(pydantic aggregates all failing fields of a row into one error; the
model keeps the first, which settles row-level accept/reject.) -/
inductive ValErr where
  | missing (field : String)
  | invalid (field : String)
deriving DecidableEq, Repr

/-- Digits of an integer literal. -/
def natFromDigits (cs : List Char) : Option Nat :=
  if cs ≠ [] ∧ cs.all (fun c => c.isDigit) then
    some (cs.foldl (fun a c => 10 * a + (c.toNat - 48)) 0)
  else none

/-- Surrounding-whitespace stripping (Python `str.strip()` as applied by
the string-to-int coercion), structurally on the character list. -/
def trimChars (l : List Char) : List Char :=
  ((l.dropWhile Char.isWhitespace).reverse.dropWhile Char.isWhitespace).reverse

/-- Model of pydantic's lax string-to-int coercion for `customer_id`:
optional sign followed by digits (surrounding whitespace stripped). -/
def strToInt (s : String) : Option Int :=
  match trimChars s.toList with
  | '-' :: rest => (natFromDigits rest).map (fun n => -(n : Int))
  | '+' :: rest => (natFromDigits rest).map (fun n => (n : Int))
  | l => (natFromDigits l).map (fun n => (n : Int))

/-- Validation of the `customer_id` field: must coerce to an integer. -/
def validateId : RawValue → Option Int
  | .rint n => some n
  | .rstr s => strToInt s
  | _ => none

/-- Validation of the `name`/`country` fields: pydantic v2 `str` accepts
strings only (no coercion from numbers, NaN or datetimes). -/
def validateText : RawValue → Option String
  | .rstr s => some s
  | _ => none

/-- The `parse_signup_date` before-validator followed by pydantic's
`datetime` check, restricted to naive results: strings go through
`strptime('%Y-%m-%d')`; an already structured date/time value is
returned as is.  A numeric value — which pydantic would epoch-coerce to
an *aware* datetime — has no naive image and is mapped to `none` here;
`parse_signup_date_full` below models the complete coercion. -/
def parse_signup_date : RawValue → Option DateTime
  | .rstr s => parseSignupDateStr s
  | .rdate dt => some dt
  | _ => none

/-- `CustomerData(**item)`: validate the four declared fields in
declaration order; extra keys are ignored (pydantic default
`extra='ignore'`).  A missing key is a missing-field error, a present key
whose value fails coercion is an invalid-value error. -/
def validateRow (r : RawRow) : Except ValErr CustomerData :=
  match r.customer_id with
  | none => .error (.missing "customer_id")
  | some v0 =>
    match validateId v0 with
    | none => .error (.invalid "customer_id")
    | some cid =>
      match r.name with
      | none => .error (.missing "name")
      | some v1 =>
        match validateText v1 with
        | none => .error (.invalid "name")
        | some nm =>
          match r.signup_date with
          | none => .error (.missing "signup_date")
          | some v2 =>
            match parse_signup_date v2 with
            | none => .error (.invalid "signup_date")
            | some dt =>
              match r.country with
              | none => .error (.missing "country")
              | some v3 =>
                match validateText v3 with
                | none => .error (.invalid "country")
                | some ct => .ok ⟨cid, nm, dt, ct⟩

/-- The list comprehension `[CustomerData(**item) for item in data]`:
rows are validated in order and the first failing row raises, discarding
everything (all-or-nothing). -/
def validateRows : List RawRow → Except ValErr (List CustomerData)
  | [] => .ok []
  | r :: rs =>
    match validateRow r with
    | .error e => .error e
    | .ok c =>
      match validateRows rs with
      | .error e => .error e
      | .ok cs => .ok (c :: cs)

/-- Boolean success test for an `Except` result. -/
def exceptOk {ε α : Type} : Except ε α → Bool
  | .ok _ => true
  | .error _ => false

/-! ## Writer: `pd.DataFrame(filtered_data)` + `df.to_csv(output_file, index=False)`

`item.dict()` returns the four fields in declaration order, so a
non-empty record list yields a DataFrame with columns
`customer_id,name,signup_date,country` (the dates being within the
pandas timestamp range, the `signup_date` column has dtype
`datetime64`), and `to_csv(index=False)` writes that header line
followed by one line per record.  The datetime column is formatted at
column level (`DatetimeArray._format_native_types`, the GH#21734
dates-only shortcut): a timezone-naive column *all* of whose values are
at midnight is written with the dates-only format `%Y-%m-%d`; otherwise
each cell is `str(...)` of its timestamp,
`YYYY-MM-DD HH:MM:SS[.ffffff]`.  Fields are quoted minimally
(csv `QUOTE_MINIMAL`).

`pd.DataFrame([])` built from an *empty* list has no columns at all, so
`to_csv(index=False)` writes an empty header row: the file consists of
the line terminator alone, with no column names. -/

/-- Zero-padded decimal rendering. -/
def padZeros (w n : Nat) : String :=
  String.mk (List.replicate (w - (toString n).length) '0') ++ toString n

/-- The date part of `str(datetime)`: `YYYY-MM-DD` (year padded to 4). -/
def renderDate10 (dt : DateTime) : String :=
  padZeros 4 dt.year ++ "-" ++ padZeros 2 dt.month ++ "-" ++ padZeros 2 dt.day

/-- The time part of `str(datetime)`: `HH:MM:SS`, with `.ffffff`
appended only when the microsecond part is non-zero. -/
def renderTime (u : Nat) : String :=
  padZeros 2 (u / 3600000000) ++ ":" ++ padZeros 2 (u / 60000000 % 60) ++ ":" ++
    padZeros 2 (u / 1000000 % 60) ++
    (if u % 1000000 = 0 then "" else "." ++ padZeros 6 (u % 1000000))

/-- `str(...)` of a (naive) datetime / pandas timestamp: the rendering
`to_csv` uses for the cells of a datetime column that is *not* all
midnight (otherwise the column-level dates-only format applies, see
`renderCsv`). -/
def renderTS (dt : DateTime) : String :=
  renderDate10 dt ++ (" " ++ renderTime dt.usec)

/-- Doubling of embedded quotes, as the csv module writes them. -/
def dupQuotes : List Char → List Char
  | [] => []
  | c :: t => if c = '"' then '"' :: '"' :: dupQuotes t else c :: dupQuotes t

/-- Minimal CSV quoting (csv module `QUOTE_MINIMAL`): quote a field only
when it contains a separator, a quote or a line break. -/
def csvField (s : String) : String :=
  if s.toList.any (fun ch => ch = ',' ∨ ch = '"' ∨ ch = '\n' ∨ ch = '\r') then
    "\"" ++ String.mk (dupQuotes s.toList) ++ "\""
  else s

/-- One data line of the output CSV; `datesOnly` is the column-level
dates-only flag `to_csv` computes from the whole `signup_date` column
(true exactly when every value in the column is at midnight). -/
def rowLine (datesOnly : Bool) (r : CustomerData) : String :=
  toString r.customer_id ++ "," ++ csvField r.name ++ "," ++
    cond datesOnly (renderDate10 r.signup_date) (renderTS r.signup_date) ++
    "," ++ csvField r.country

/-- The header line `to_csv` writes for a non-empty record list. -/
def csvHeader : String := "customer_id,name,signup_date,country"

/-- Output-file content produced by
`pd.DataFrame(filtered_data).to_csv(output_file, index=False)`: for a
non-empty record list, the header plus one line per record, with the
`signup_date` column formatted dates-only exactly when all of its
values are at midnight (pandas' dates-only shortcut).  For the empty
list the DataFrame has no columns and the file is a single line
terminator. -/
def renderCsv (rows : List CustomerData) : String :=
  match rows with
  | [] => "\n"
  | _ :: _ =>
      csvHeader ++ "\n" ++
        String.join (rows.map (fun r =>
          rowLine (rows.all (fun x => decide (x.signup_date.usec = 0))) r ++ "\n"))

/-! ## Pipeline stages and `main`

Ambient effects are made explicit: the parsed content of the input file
enters as an `Except` (reading or CSV-parsing may fail), the current
time is a parameter, the writability of the destination is a flag, and
the loguru log is a list of messages threaded through the stages.  The
run's outcome is `some content` (the bytes of `proc__<basename>`) or
`none` when no output file is produced. -/

/-- Log message texts of the source (`logger.info` / `error` /
`critical` calls), with the pydantic/pandas exception rendered as a
short description. -/
def msgReadOk (f : String) : String := "Successfully read the input file: " ++ f

/-- Log text of `read_csv_file`'s failure branch. -/
def msgReadErr (e : String) : String := "Error reading the input file: " ++ e

/-- Log text of `validate_customer_data`'s success branch. -/
def msgValOk : String := "Data validation successful"

/-- Rendering of a pydantic `ValidationError` for the log. -/
def renderValErr : ValErr → String
  | .missing f => "1 validation error for CustomerData: " ++ f ++ ": Field required"
  | .invalid f => "1 validation error for CustomerData: " ++ f ++ ": Input invalid"

/-- Log text of `validate_customer_data`'s failure branch. -/
def msgValErr (e : ValErr) : String := "Data validation error: " ++ renderValErr e

/-- Log text of `filter_recent_customers`'s success branch. -/
def msgFilterOk : String := "Filtered customers who signed up more than a year ago"

/-- Log text of `filter_recent_customers`'s failure branch. -/
def msgFilterErr (e : String) : String := "Error filtering customers: " ++ e

/-- Log text of `save_filtered_data_to_csv`'s success branch. -/
def msgSaveOk (f : String) : String := "Successfully saved the filtered data to: " ++ f

/-- Log text of `save_filtered_data_to_csv`'s failure branch. -/
def msgSaveErr (e : String) : String := "Error saving the filtered data: " ++ e

/-- Log text of `main`'s catch-all `logger.critical`. -/
def msgCritical (e : String) : String := "Failed to process the CSV file: " ++ e

/-- Model of `os.path.basename`: the suffix after the last `/`. -/
def basename (p : String) : String :=
  String.mk ((p.toList.reverse.takeWhile (fun c => c ≠ '/')).reverse)

/-- Stage 1, `read_csv_file`: `pd.read_csv` either yields the raw rows or
raises an I/O/parse error; the stage logs accordingly and re-raises. -/
def read_csv_file (file_path : String) (contents : Except String (List RawRow))
    (log : List String) : Except String (List RawRow) × List String :=
  match contents with
  | .ok df => (.ok df, log ++ [msgReadOk file_path])
  | .error e => (.error e, log ++ [msgReadErr e])

/-- Stage 2, `validate_customer_data`: all-or-nothing validation; on the
first failing row the `ValidationError` is logged and re-raised. -/
def validate_customer_data (df : List RawRow) (log : List String) :
    Except ValErr (List CustomerData) × List String :=
  match validateRows df with
  | .ok v => (.ok v, log ++ [msgValOk])
  | .error e => (.error e, log ++ [msgValErr e])

/-- The list comprehension in `filter_recent_customers`:
`[item.dict() for item in validated_data if item.signup_date >= one_year_ago]`
(`item.dict()` is the record's field mapping, i.e. the record itself). -/
def filterKeep (cutoff : DateTime) : List CustomerData → List CustomerData
  | [] => []
  | item :: rest =>
      if dtLe cutoff item.signup_date then item :: filterKeep cutoff rest
      else filterKeep cutoff rest

/-- The only fallible operation in the body of `filter_recent_customers`
on timezone-naive data: `datetime.now() - pd.DateOffset(years=1)` raises
`OutOfBoundsDatetime` when the result leaves the pandas `Timestamp`
range (1677-09-21 .. 2262-04-11; modelled at day granularity, which the
theorems never approach). -/
def tsInRange (dt : DateTime) : Bool :=
  dtLe ⟨1677, 9, 22, 0⟩ dt && dtLe dt ⟨2262, 4, 11, 0⟩

/-- Stage 3, `filter_recent_customers`: compute `one_year_ago`, keep the
records whose `signup_date` compares `>=` to it (in order), log; any
exception in the body is logged and re-raised. -/
def filter_recent_customers (now : DateTime) (validated : List CustomerData)
    (log : List String) : Except String (List CustomerData) × List String :=
  if tsInRange (one_year_ago now) then
    (.ok (filterKeep (one_year_ago now) validated), log ++ [msgFilterOk])
  else
    (.error "OutOfBoundsDatetime", log ++ [msgFilterErr "OutOfBoundsDatetime"])

/-- Stage 4, `save_filtered_data_to_csv`: serialize and write; an
unwritable destination raises an I/O error which is logged and
re-raised.  On success the file content is `renderCsv df`. -/
def save_filtered_data_to_csv (df : List CustomerData) (output_file : String)
    (writeOk : Bool) (log : List String) : Except String String × List String :=
  if writeOk then (.ok (renderCsv df), log ++ [msgSaveOk output_file])
  else (.error "I/O error", log ++ [msgSaveErr "I/O error"])

namespace Pipeline

/-- The `main` orchestration: derive `proc__<basename>`, run the four
stages, and catch any exception, turning it into a `logger.critical`
entry; in that case no output file is produced (`none`). -/
def main (input_file : String) (contents : Except String (List RawRow))
    (now : DateTime) (writeOk : Bool) (log : List String) :
    Option String × List String :=
  let output_file := "proc__" ++ basename input_file
  match read_csv_file input_file contents log with
  | (.error e, l1) => (none, l1 ++ [msgCritical e])
  | (.ok df, l1) =>
    match validate_customer_data df l1 with
    | (.error e, l2) => (none, l2 ++ [msgCritical (renderValErr e)])
    | (.ok v, l2) =>
      match filter_recent_customers now v l2 with
      | (.error e, l3) => (none, l3 ++ [msgCritical e])
      | (.ok filtered, l3) =>
        match save_filtered_data_to_csv filtered output_file writeOk l3 with
        | (.error e, l4) => (none, l4 ++ [msgCritical e])
        | (.ok content, l4) => (some content, l4)

end Pipeline

/-! ## Timezone-aware layer

`DateTime` above is a timezone-naive wall clock — what this pipeline's
`strptime` and `datetime.now()` calls construct.  pydantic's lax mode
can however hand the filter a timezone-*aware* `signup_date`: an
all-numeric CSV column is inferred as int64 by `pd.read_csv`, the
`mode='before'` validator passes non-strings through, and pydantic
coerces the integer through speedate's Unix-epoch rule to an aware UTC
datetime.  Comparing such a value with the naive `one_year_ago` then
raises `TypeError` inside `filter_recent_customers`.  This layer models
validation and filtering in full; the naive definitions above are its
restriction to rows without numeric `signup_date` cells
(`validateRowTz_agrees`). -/

/-- A possibly timezone-aware Python datetime: wall-clock components
plus an optional UTC offset in minutes.  `none` is a naive value;
pydantic's epoch coercion produces offset `some 0` (UTC). -/
structure PyDateTime where
  wall : DateTime
  tzOffset : Option Int
deriving DecidableEq, Repr

/-- Conversion of a day count since 1970-01-01 to a Gregorian calendar
date (Howard Hinnant's `civil_from_days` algorithm, the standard Unix
epoch-to-calendar arithmetic; Lean's `/` on `Int` truncates toward zero
exactly as the reference algorithm expects). -/
def civilFromDays (z0 : Int) : Int × Nat × Nat :=
  let z := z0 + 719468
  let era : Int := (if 0 ≤ z then z else z - 146096) / 146097
  let doe : Nat := (z - era * 146097).toNat
  let yoe : Nat := (doe - doe / 1460 + doe / 36524 - doe / 146096) / 365
  let y : Int := (yoe : Int) + era * 400
  let doy : Nat := doe - (365 * yoe + yoe / 4 - yoe / 100)
  let mp : Nat := (5 * doy + 2) / 153
  let d : Nat := doy - (153 * mp + 2) / 5 + 1
  let m : Nat := if mp < 10 then mp + 3 else mp - 9
  (if m ≤ 2 then y + 1 else y, m, d)

/-- pydantic v2's lax coercion of a numeric `signup_date` (speedate's
`from_timestamp`): magnitudes above 20 000 000 000 are milliseconds
since the epoch, others seconds; dates outside years 1..9999 error; the
result is an *aware* UTC datetime. -/
def epochToPyDateTime (n : Int) : Option PyDateTime :=
  let ms : Int := if n.natAbs ≤ 20000000000 then n * 1000 else n
  let days : Int := Int.ediv ms 86400000
  let msOfDay : Nat := (Int.emod ms 86400000).toNat
  let c := civilFromDays days
  if 1 ≤ c.1 ∧ c.1 ≤ 9999 then
    some ⟨⟨c.1.toNat, c.2.1, c.2.2, msOfDay * 1000⟩, some 0⟩
  else none

/-- The complete pydantic coercion for the `signup_date` field: strings
through the `strptime` before-validator (naive), structured date/times
unchanged (naive), numerics through the epoch rule (aware UTC), NaN
rejected. -/
def parse_signup_date_full : RawValue → Option PyDateTime
  | .rstr s =>
      match parseSignupDateStr s with
      | some dt => some ⟨dt, none⟩
      | none => none
  | .rdate dt => some ⟨dt, none⟩
  | .rint n => epochToPyDateTime n
  | .rnan => none

/-- A validated record in the full model: `signup_date` may be aware. -/
structure CustomerDataTz where
  customer_id : Int
  name : String
  signup_date : PyDateTime
  country : String
deriving DecidableEq, Repr

/-- `CustomerData(**item)` in full fidelity: identical to `validateRow`
except that `signup_date` uses the complete coercion, so a numeric cell
validates to an aware UTC datetime instead of failing. -/
def validateRowTz (r : RawRow) : Except ValErr CustomerDataTz :=
  match r.customer_id with
  | none => .error (.missing "customer_id")
  | some v0 =>
    match validateId v0 with
    | none => .error (.invalid "customer_id")
    | some cid =>
      match r.name with
      | none => .error (.missing "name")
      | some v1 =>
        match validateText v1 with
        | none => .error (.invalid "name")
        | some nm =>
          match r.signup_date with
          | none => .error (.missing "signup_date")
          | some v2 =>
            match parse_signup_date_full v2 with
            | none => .error (.invalid "signup_date")
            | some dt =>
              match r.country with
              | none => .error (.missing "country")
              | some v3 =>
                match validateText v3 with
                | none => .error (.invalid "country")
                | some ct => .ok ⟨cid, nm, dt, ct⟩

/-- Embedding of a naive validated record into the full model. -/
def CustomerData.toTz (c : CustomerData) : CustomerDataTz :=
  ⟨c.customer_id, c.name, ⟨c.signup_date, none⟩, c.country⟩

/-- The comparison `item.signup_date >= one_year_ago` performed inside
the filter's comprehension: `one_year_ago` is always naive (it comes
from `datetime.now()`), so Python compares wall clocks when
`signup_date` is naive and raises `TypeError` when it is aware. -/
def cmpToNaiveCutoff (cutoff : DateTime) (v : PyDateTime) : Except String Bool :=
  match v.tzOffset with
  | none => .ok (dtLe cutoff v.wall)
  | some _ => .error "TypeError: cannot compare offset-naive and offset-aware datetimes"

/-- The filtering comprehension in the full model: items are examined
in order and the first aware `signup_date` raises. -/
def filterKeepTz (cutoff : DateTime) : List CustomerDataTz → Except String (List CustomerDataTz)
  | [] => .ok []
  | item :: rest =>
      match cmpToNaiveCutoff cutoff item.signup_date with
      | .error e => .error e
      | .ok keep =>
          match filterKeepTz cutoff rest with
          | .error e => .error e
          | .ok kept => .ok (if keep then item :: kept else kept)

/-- Stage 3 in the full model: any exception in the body — the offset
computation leaving the pandas timestamp range, or a naive/aware
comparison — is logged and re-raised; otherwise the filtered list is
returned with the success log entry. -/
def filter_recent_customers_tz (now : DateTime) (validated : List CustomerDataTz)
    (log : List String) : Except String (List CustomerDataTz) × List String :=
  if tsInRange (one_year_ago now) then
    match filterKeepTz (one_year_ago now) validated with
    | .ok kept => (.ok kept, log ++ [msgFilterOk])
    | .error e => (.error e, log ++ [msgFilterErr e])
  else
    (.error "OutOfBoundsDatetime", log ++ [msgFilterErr "OutOfBoundsDatetime"])

/-! ## Helper lemmas -/

/-- The source's Boolean datetime comparison agrees with the
specification-side chronological order. -/
theorem dtLe_iff (a b : DateTime) : dtLe a b = true ↔ DTle a b := by
  unfold dtLe DTle
  split_ifs with h1 h2 h3 <;> simp_all

/-- Pointwise Boolean form of `dtLe_iff`. -/
theorem dtLe_eq_decide (a b : DateTime) : dtLe a b = decide (DTle a b) := by
  by_cases h : DTle a b
  · simp [h, (dtLe_iff a b).mpr h]
  · cases hb : dtLe a b
    · simp [h]
    · exact absurd ((dtLe_iff a b).mp hb) h

/-- Datetime comparison is reflexive (`d >= d` holds in Python). -/
theorem dtLe_refl (a : DateTime) : dtLe a a = true := by
  unfold dtLe; simp

/-- The filtering comprehension is `List.filter` of the comparison. -/
theorem filterKeep_eq_filter (c : DateTime) (rows : List CustomerData) :
    filterKeep c rows = rows.filter (fun r => dtLe c r.signup_date) := by
  induction rows with
  | nil => rfl
  | cons a t ih =>
      simp only [filterKeep, List.filter_cons, ih]

/-- On a list of records whose `signup_date` values are all naive, the
full-model comprehension never raises and agrees with the naive
filter. -/
theorem filterKeepTz_naive (cutoff : DateTime) (l : List CustomerDataTz)
    (h : ∀ r ∈ l, r.signup_date.tzOffset = none) :
    filterKeepTz cutoff l =
      .ok (l.filter (fun r => dtLe cutoff r.signup_date.wall)) := by
  induction l with
  | nil => rfl
  | cons a t ih =>
      have ha := h a (by simp)
      have ht : ∀ r ∈ t, r.signup_date.tzOffset = none := fun r hr => h r (by simp [hr])
      simp only [filterKeepTz, cmpToNaiveCutoff, ha, ih ht, List.filter_cons]

/-- On rows whose `signup_date` cell is not numeric, the full validator
agrees with the naive validator used by the string-path claims. -/
theorem validateRowTz_agrees (r : RawRow)
    (h : ∀ n : Int, r.signup_date ≠ some (.rint n)) :
    validateRowTz r = (validateRow r).map CustomerData.toTz := by
  unfold validateRowTz validateRow
  rcases r.customer_id with _ | v0
  · rfl
  simp only []
  rcases validateId v0 with _ | cid
  · rfl
  simp only []
  rcases r.name with _ | v1
  · rfl
  simp only []
  rcases validateText v1 with _ | nm
  · rfl
  simp only []
  rcases hd : r.signup_date with _ | v2
  · rfl
  simp only []
  rcases v2 with n | s2 | _ | dt0
  · exact absurd hd (h n)
  · simp only [parse_signup_date_full, parse_signup_date]
    rcases parseSignupDateStr s2 with _ | dt
    · rfl
    simp only []
    rcases r.country with _ | v3
    · rfl
    simp only []
    rcases validateText v3 with _ | ct
    · rfl
    rfl
  · rfl
  · simp only [parse_signup_date_full, parse_signup_date]
    rcases r.country with _ | v3
    · rfl
    simp only []
    rcases validateText v3 with _ | ct
    · rfl
    rfl

/-- Records that compare `>=` to the cutoff survive the comprehension. -/
theorem mem_filterKeep {c : DateTime} {rows : List CustomerData} {r : CustomerData}
    (hr : r ∈ rows) (hle : dtLe c r.signup_date = true) : r ∈ filterKeep c rows := by
  rw [filterKeep_eq_filter]
  exact List.mem_filter.mpr ⟨hr, hle⟩

/-! ## Claim theorems -/

/-- C1: for every list of validated customer records and every current
timestamp (whose one-year offset stays in the pandas timestamp range),
`filter_recent_customers` returns exactly the records whose
`signup_date` is chronologically at or after `now` with the year
component decremented (day clamped to the target month), in input order,
and no others. -/
theorem filter_recent_customers_exact (now : DateTime) (rows : List CustomerData)
    (log : List String) (h : tsInRange (one_year_ago now) = true) :
    (filter_recent_customers now rows log).1 =
      .ok (rows.filter (fun r => decide (DTle (one_year_ago now) r.signup_date))) := by
  unfold filter_recent_customers
  rw [if_pos h]
  simp only [filterKeep_eq_filter]
  congr 2
  funext r
  exact dtLe_eq_decide _ _

/-- Closed instance of C1: of two records, exactly the one signed up
within the last year survives, and order is preserved. -/
theorem filter_recent_customers_exact_w :
    (filter_recent_customers ⟨2026, 10, 12, 45296000000⟩
      [⟨1, "Alice", ⟨2026, 1, 15, 0⟩, "US"⟩, ⟨2, "Bob", ⟨2020, 1, 15, 0⟩, "FR"⟩] []).1 =
      .ok [⟨1, "Alice", ⟨2026, 1, 15, 0⟩, "US"⟩] := by
  have h := filter_recent_customers_exact ⟨2026, 10, 12, 45296000000⟩
    [⟨1, "Alice", ⟨2026, 1, 15, 0⟩, "US"⟩, ⟨2, "Bob", ⟨2020, 1, 15, 0⟩, "FR"⟩] []
    (by decide)
  rw [h]
  rfl

/-- C2: a validated record whose `signup_date` equals `now` minus one
calendar year (same month and day, one year earlier, as computed by the
year-decrement offset) is included in the filter's output: the one-year
boundary is inclusive. -/
theorem one_year_boundary_inclusive (now : DateTime) (rows : List CustomerData)
    (log : List String) (r : CustomerData)
    (hts : tsInRange (one_year_ago now) = true)
    (hr : r ∈ rows) (hb : r.signup_date = one_year_ago now) :
    (filter_recent_customers now rows log).1 = .ok (filterKeep (one_year_ago now) rows) ∧
      r ∈ filterKeep (one_year_ago now) rows := by
  constructor
  · unfold filter_recent_customers
    rw [if_pos hts]
  · exact mem_filterKeep hr (by rw [hb]; exact dtLe_refl _)

/-- Closed instance of C2: a record signed up exactly one year before
`now` (2025-10-12 for a run on 2026-10-12, same time of day) survives. -/
theorem one_year_boundary_inclusive_w :
    (filter_recent_customers ⟨2026, 10, 12, 45296000000⟩
        [⟨1, "Ana", ⟨2025, 10, 12, 45296000000⟩, "BR"⟩] []).1 =
      .ok (filterKeep (one_year_ago ⟨2026, 10, 12, 45296000000⟩)
        [⟨1, "Ana", ⟨2025, 10, 12, 45296000000⟩, "BR"⟩]) ∧
      (⟨1, "Ana", ⟨2025, 10, 12, 45296000000⟩, "BR"⟩ : CustomerData) ∈
        filterKeep (one_year_ago ⟨2026, 10, 12, 45296000000⟩)
          [⟨1, "Ana", ⟨2025, 10, 12, 45296000000⟩, "BR"⟩] :=
  one_year_boundary_inclusive ⟨2026, 10, 12, 45296000000⟩
    [⟨1, "Ana", ⟨2025, 10, 12, 45296000000⟩, "BR"⟩] []
    ⟨1, "Ana", ⟨2025, 10, 12, 45296000000⟩, "BR"⟩
    (by decide) (by decide) (by decide)

/-- C10 counterexample: the exception branch of
`filter_recent_customers` is reachable with validated data.  A row
whose `signup_date` cell is the integer 1700000000 (an all-numeric CSV
column is inferred as int64 by `pd.read_csv`) validates — pydantic
epoch-coerces it to the timezone-aware UTC datetime
2023-11-14 22:13:20+00:00 — and the filter's comparison of that aware
value with the naive `one_year_ago` raises `TypeError`, which the stage
logs and re-raises. -/
theorem filter_exception_reachable_cex :
    validateRowTz ⟨some (.rstr "8"), some (.rstr "NumDate"), some (.rint 1700000000),
        some (.rstr "US"), []⟩ =
      .ok ⟨8, "NumDate", ⟨⟨2023, 11, 14, 80000000000⟩, some 0⟩, "US"⟩ ∧
    filter_recent_customers_tz ⟨2026, 10, 12, 0⟩
        [⟨8, "NumDate", ⟨⟨2023, 11, 14, 80000000000⟩, some 0⟩, "US"⟩] [] =
      (.error "TypeError: cannot compare offset-naive and offset-aware datetimes",
        [msgFilterErr "TypeError: cannot compare offset-naive and offset-aware datetimes"]) := by
  refine ⟨rfl, rfl⟩

/-- C10 as amended: the exception branch of `filter_recent_customers`
is unreachable for every list of validated records whose `signup_date`
values are timezone-naive — the case for all records validated from
textual `YYYY-MM-DD` or structured naive inputs — and the stage then
returns normally with the filtered list; but it is reachable when a
record carries the timezone-aware `signup_date` pydantic produces from
a numeric cell, because the naive/aware comparison raises `TypeError`. -/
theorem filter_exception_naive_unreachable (now : DateTime)
    (validated : List CustomerDataTz) (log : List String)
    (hts : tsInRange (one_year_ago now) = true)
    (hnaive : ∀ r ∈ validated, r.signup_date.tzOffset = none) :
    filter_recent_customers_tz now validated log =
      (.ok (validated.filter (fun r => dtLe (one_year_ago now) r.signup_date.wall)),
        log ++ [msgFilterOk]) := by
  unfold filter_recent_customers_tz
  rw [if_pos hts, filterKeepTz_naive _ _ hnaive]

/-- Closed instance of the amended C10 at a concrete run date and a
naive record list. -/
theorem filter_exception_naive_unreachable_w :
    filter_recent_customers_tz ⟨2026, 10, 12, 0⟩
        [⟨9, "Eve", ⟨⟨2024, 2, 29, 0⟩, none⟩, "DE"⟩] [] =
      (.ok ([⟨9, "Eve", ⟨⟨2024, 2, 29, 0⟩, none⟩, "DE"⟩].filter
          (fun r => dtLe (one_year_ago ⟨2026, 10, 12, 0⟩) r.signup_date.wall)),
        [] ++ [msgFilterOk]) :=
  filter_exception_naive_unreachable ⟨2026, 10, 12, 0⟩
    [⟨9, "Eve", ⟨⟨2024, 2, 29, 0⟩, none⟩, "DE"⟩] [] (by decide) (by decide)

/-- The produced file content depends only on the input, the current
time and the destination's writability — never on the pre-existing log
state (the only state a second run inherits from a first). -/
theorem main_fst_log_indep (f : String) (c : Except String (List RawRow))
    (now : DateTime) (w : Bool) (l1 l2 : List String) :
    (Pipeline.main f c now w l1).1 = (Pipeline.main f c now w l2).1 := by
  unfold Pipeline.main read_csv_file validate_customer_data filter_recent_customers
    save_filtered_data_to_csv
  cases c with
  | error e => rfl
  | ok df =>
      cases hv : validateRows df with
      | error e => simp [hv]
      | ok v =>
          by_cases ht : tsInRange (one_year_ago now) = true
          · cases w <;> simp [hv, ht]
          · simp [hv, ht]

/-- C7: the pipeline is deterministic given the input file and the
current time: its output content is independent of the ambient log
state, and a second run on the same input and `now` (inheriting the
first run's log) produces byte-identical output content. -/
theorem pipeline_deterministic (f : String) (c : Except String (List RawRow))
    (now : DateTime) (w : Bool) (log1 log2 : List String) :
    (Pipeline.main f c now w log1).1 = (Pipeline.main f c now w log2).1 ∧
      (Pipeline.main f c now w (Pipeline.main f c now w log1).2).1 =
        (Pipeline.main f c now w log1).1 :=
  ⟨main_fst_log_indep f c now w log1 log2,
    main_fst_log_indep f c now w (Pipeline.main f c now w log1).2 log1⟩

/-- Validation of a batch whose prefix is valid and whose next row fails
raises that row's error, regardless of everything after it. -/
theorem validateRows_append_error {bad : RawRow} {e : ValErr} (pre suf : List RawRow)
    (hpre : ∀ p ∈ pre, exceptOk (validateRow p) = true)
    (hbad : validateRow bad = .error e) :
    validateRows (pre ++ bad :: suf) = .error e := by
  induction pre with
  | nil => simp [validateRows, hbad]
  | cons p t ih =>
      have hp := hpre p (by simp)
      cases hv : validateRow p with
      | error e2 => rw [hv] at hp; simp [exceptOk] at hp
      | ok cD =>
          have ht : ∀ q ∈ t, exceptOk (validateRow q) = true := fun q hq => hpre q (by simp [hq])
          simp [validateRows, hv, ih ht]

/-- C3: a batch in which some row fails a field rule makes
`validate_customer_data` raise with the first failing row's error — no
partial result — and the whole run (`main`) produces no output file. -/
theorem validation_all_or_nothing (pre suf : List RawRow) (bad : RawRow) (e : ValErr)
    (f : String) (now : DateTime) (w : Bool) (log : List String)
    (hpre : ∀ p ∈ pre, exceptOk (validateRow p) = true)
    (hbad : validateRow bad = .error e) :
    validateRows (pre ++ bad :: suf) = .error e ∧
      (Pipeline.main f (.ok (pre ++ bad :: suf)) now w log).1 = none := by
  have hv := validateRows_append_error pre suf hpre hbad
  refine ⟨hv, ?_⟩
  unfold Pipeline.main read_csv_file validate_customer_data
  simp [hv]

/-- Closed instance of C3, the spec's own scenario: five otherwise-valid
rows where row 3 has the non-numeric `customer_id` "abc"; the batch
fails as a whole and no output file is written. -/
theorem validation_all_or_nothing_w :
    validateRows
        [⟨some (.rstr "1"), some (.rstr "Alice"), some (.rstr "2026-01-15"), some (.rstr "US"), []⟩,
         ⟨some (.rstr "2"), some (.rstr "Bob"), some (.rstr "2025-12-01"), some (.rstr "FR"), []⟩,
         ⟨some (.rstr "abc"), some (.rstr "Mallory"), some (.rstr "2026-02-02"), some (.rstr "GB"), []⟩,
         ⟨some (.rstr "4"), some (.rstr "Dana"), some (.rstr "2026-03-03"), some (.rstr "CA"), []⟩,
         ⟨some (.rstr "5"), some (.rstr "Eli"), some (.rstr "2026-04-04"), some (.rstr "AU"), []⟩] =
      .error (.invalid "customer_id") ∧
      (Pipeline.main "customers.csv"
        (.ok [⟨some (.rstr "1"), some (.rstr "Alice"), some (.rstr "2026-01-15"), some (.rstr "US"), []⟩,
              ⟨some (.rstr "2"), some (.rstr "Bob"), some (.rstr "2025-12-01"), some (.rstr "FR"), []⟩,
              ⟨some (.rstr "abc"), some (.rstr "Mallory"), some (.rstr "2026-02-02"), some (.rstr "GB"), []⟩,
              ⟨some (.rstr "4"), some (.rstr "Dana"), some (.rstr "2026-03-03"), some (.rstr "CA"), []⟩,
              ⟨some (.rstr "5"), some (.rstr "Eli"), some (.rstr "2026-04-04"), some (.rstr "AU"), []⟩])
        ⟨2026, 10, 12, 0⟩ true []).1 = none :=
  validation_all_or_nothing
    [⟨some (.rstr "1"), some (.rstr "Alice"), some (.rstr "2026-01-15"), some (.rstr "US"), []⟩,
     ⟨some (.rstr "2"), some (.rstr "Bob"), some (.rstr "2025-12-01"), some (.rstr "FR"), []⟩]
    [⟨some (.rstr "4"), some (.rstr "Dana"), some (.rstr "2026-03-03"), some (.rstr "CA"), []⟩,
     ⟨some (.rstr "5"), some (.rstr "Eli"), some (.rstr "2026-04-04"), some (.rstr "AU"), []⟩]
    ⟨some (.rstr "abc"), some (.rstr "Mallory"), some (.rstr "2026-02-02"), some (.rstr "GB"), []⟩
    (.invalid "customer_id") "customers.csv" ⟨2026, 10, 12, 0⟩ true []
    (by decide) (by rfl)

/-- C6: an error in any stage is logged by that stage and re-raised, and
only `main` catches it, appending a critical entry and returning without
raising; no failing run produces an output file, while a fully
successful run produces exactly the serialized filtered records.  The
five cases cover read failure, validation failure, filter failure,
write failure, and success. -/
theorem error_propagation_stages (f : String) (c : Except String (List RawRow))
    (now : DateTime) (w : Bool) (log : List String) :
    (∀ e, c = .error e →
        Pipeline.main f c now w log =
          (none, log ++ [msgReadErr e, msgCritical e])) ∧
    (∀ df e, c = .ok df → validateRows df = .error e →
        Pipeline.main f c now w log =
          (none, log ++ [msgReadOk f, msgValErr e, msgCritical (renderValErr e)])) ∧
    (∀ df v, c = .ok df → validateRows df = .ok v →
        tsInRange (one_year_ago now) = false →
        Pipeline.main f c now w log =
          (none, log ++ [msgReadOk f, msgValOk, msgFilterErr "OutOfBoundsDatetime",
            msgCritical "OutOfBoundsDatetime"])) ∧
    (∀ df v, c = .ok df → validateRows df = .ok v →
        tsInRange (one_year_ago now) = true → w = false →
        Pipeline.main f c now w log =
          (none, log ++ [msgReadOk f, msgValOk, msgFilterOk, msgSaveErr "I/O error",
            msgCritical "I/O error"])) ∧
    (∀ df v, c = .ok df → validateRows df = .ok v →
        tsInRange (one_year_ago now) = true → w = true →
        Pipeline.main f c now w log =
          (some (renderCsv (filterKeep (one_year_ago now) v)),
            log ++ [msgReadOk f, msgValOk, msgFilterOk,
              msgSaveOk ("proc__" ++ basename f)])) := by
  refine ⟨?_, ?_, ?_, ?_, ?_⟩
  · intro e hc
    subst hc
    unfold Pipeline.main read_csv_file
    simp
  · intro df e hc hv
    subst hc
    unfold Pipeline.main read_csv_file validate_customer_data
    simp [hv]
  · intro df v hc hv ht
    subst hc
    unfold Pipeline.main read_csv_file validate_customer_data filter_recent_customers
    simp [hv, ht]
  · intro df v hc hv ht hw
    subst hc hw
    unfold Pipeline.main read_csv_file validate_customer_data filter_recent_customers
      save_filtered_data_to_csv
    simp [hv, ht]
  · intro df v hc hv ht hw
    subst hc hw
    unfold Pipeline.main read_csv_file validate_customer_data filter_recent_customers
      save_filtered_data_to_csv
    simp [hv, ht]

/-- Closed instance of C6: a missing input file is logged by the read
stage, `main` adds the critical entry, and no output is produced. -/
theorem error_propagation_stages_w :
    Pipeline.main "customers.csv" (.error "No such file or directory")
        ⟨2026, 10, 12, 0⟩ true [] =
      (none, [msgReadErr "No such file or directory",
        msgCritical "No such file or directory"]) := by
  have h := (error_propagation_stages "customers.csv" (.error "No such file or directory")
    ⟨2026, 10, 12, 0⟩ true []).1 "No such file or directory" rfl
  simpa using h

/-- C5 counterexample: a run whose rows all validate but none survives
the one-year filter creates an output file consisting of a single line
terminator — it does not contain the header row with the four column
names (`pd.DataFrame` of an empty record list has no columns). -/
theorem empty_result_no_header_cex :
    (Pipeline.main "customers.csv"
        (.ok [⟨some (.rstr "3"), some (.rstr "Oldie"), some (.rstr "2020-01-15"),
          some (.rstr "JP"), []⟩])
        ⟨2026, 10, 12, 0⟩ true []).1 = some "\n" ∧
      ("\n" : String) ≠ "customer_id,name,signup_date,country\n" := by
  constructor
  · rfl
  · decide

/-- C5 as amended: when every row validates and the filtered set is
empty, the output file is still created, but it contains no header and
no data rows — its content is a single line terminator. -/
theorem empty_result_newline_only (f : String) (df : List RawRow)
    (v : List CustomerData) (now : DateTime) (log : List String)
    (hv : validateRows df = .ok v)
    (hts : tsInRange (one_year_ago now) = true)
    (hempty : filterKeep (one_year_ago now) v = []) :
    (Pipeline.main f (.ok df) now true log).1 = some "\n" := by
  unfold Pipeline.main read_csv_file validate_customer_data filter_recent_customers
    save_filtered_data_to_csv
  simp [hv, hts, hempty, renderCsv]

/-- Closed instance of the amended C5: one valid row signed up in 2020,
run in 2026 — the output file is exactly one line terminator. -/
theorem empty_result_newline_only_w :
    (Pipeline.main "data/customers.csv"
        (.ok [⟨some (.rstr "7"), some (.rstr "Old Timer"), some (.rstr "2020-06-30"),
          some (.rstr "IT"), []⟩])
        ⟨2026, 10, 12, 3600000000⟩ true []).1 = some "\n" :=
  empty_result_newline_only "data/customers.csv"
    [⟨some (.rstr "7"), some (.rstr "Old Timer"), some (.rstr "2020-06-30"),
      some (.rstr "IT"), []⟩]
    [⟨7, "Old Timer", ⟨2020, 6, 30, 0⟩, "IT"⟩]
    ⟨2026, 10, 12, 3600000000⟩ [] (by rfl) (by decide) (by rfl)

/-- C8: pydantic's default `extra='ignore'` configuration makes the
validator insensitive to extra columns; a row with the four required
fields present and coercible validates no matter what extras accompany
it; and a missing-field rejection can only occur when a required field
is actually absent from the row. -/
theorem extra_columns_ignored (r : RawRow) (e1 e2 : List (String × RawValue)) :
    validateRow {r with extras := e1} = validateRow {r with extras := e2} ∧
    (∀ v0 v1 v2 v3 cid nm dt ct,
      r.customer_id = some v0 → validateId v0 = some cid →
      r.name = some v1 → validateText v1 = some nm →
      r.signup_date = some v2 → parse_signup_date v2 = some dt →
      r.country = some v3 → validateText v3 = some ct →
      validateRow r = .ok ⟨cid, nm, dt, ct⟩) ∧
    (∀ fl, validateRow r = .error (.missing fl) →
      r.customer_id = none ∨ r.name = none ∨ r.signup_date = none ∨ r.country = none) := by
  refine ⟨rfl, ?_, ?_⟩
  · intro v0 v1 v2 v3 cid nm dt ct h0 hid h1 hnm h2 hdt h3 hct
    unfold validateRow
    rw [h0, h1, h2, h3]
    simp [hid, hnm, hdt, hct]
  · intro fl hmiss
    rcases hc : r.customer_id with _ | v0
    · exact Or.inl rfl
    rcases hn : r.name with _ | v1
    · exact Or.inr (Or.inl rfl)
    rcases hd : r.signup_date with _ | v2
    · exact Or.inr (Or.inr (Or.inl rfl))
    rcases hco : r.country with _ | v3
    · exact Or.inr (Or.inr (Or.inr rfl))
    exfalso
    rcases hv0 : validateId v0 with _ | cid
    · simp [validateRow, hc, hv0] at hmiss
    rcases hv1 : validateText v1 with _ | nm
    · simp [validateRow, hc, hn, hv0, hv1] at hmiss
    rcases hv2 : parse_signup_date v2 with _ | dt
    · simp [validateRow, hc, hn, hd, hv0, hv1, hv2] at hmiss
    rcases hv3 : validateText v3 with _ | ct
    · simp [validateRow, hc, hn, hd, hco, hv0, hv1, hv2, hv3] at hmiss
    simp [validateRow, hc, hn, hd, hco, hv0, hv1, hv2, hv3] at hmiss

/-- Closed instance of C8: a row with two extra columns validates to the
same record as the row without them. -/
theorem extra_columns_ignored_w :
    validateRow ⟨some (.rstr "1"), some (.rstr "Alice"), some (.rstr "2026-01-15"),
        some (.rstr "US"), [("plan", .rstr "pro"), ("age", .rint 33)]⟩ =
      validateRow ⟨some (.rstr "1"), some (.rstr "Alice"), some (.rstr "2026-01-15"),
        some (.rstr "US"), []⟩ ∧
    validateRow ⟨some (.rstr "1"), some (.rstr "Alice"), some (.rstr "2026-01-15"),
        some (.rstr "US"), [("plan", .rstr "pro"), ("age", .rint 33)]⟩ =
      .ok ⟨1, "Alice", ⟨2026, 1, 15, 0⟩, "US"⟩ :=
  ⟨(extra_columns_ignored
      ⟨some (.rstr "1"), some (.rstr "Alice"), some (.rstr "2026-01-15"),
        some (.rstr "US"), []⟩ [("plan", .rstr "pro"), ("age", .rint 33)] []).1,
    (extra_columns_ignored
      ⟨some (.rstr "1"), some (.rstr "Alice"), some (.rstr "2026-01-15"),
        some (.rstr "US"), [("plan", .rstr "pro"), ("age", .rint 33)]⟩ [] []).2.1
      (.rstr "1") (.rstr "Alice") (.rstr "2026-01-15") (.rstr "US") 1 "Alice"
      ⟨2026, 1, 15, 0⟩ "US" rfl rfl rfl rfl rfl rfl rfl rfl⟩

/-- Any datetime produced by the `strptime('%Y-%m-%d')` model is at
midnight. -/
theorem strptimeL_usec_zero (l : List Nat) (dt : DateTime)
    (h : strptimeL l = some dt) : dt.usec = 0 := by
  unfold strptimeL at h
  split at h
  next a b c d rest =>
    split_ifs at h
    split at h
    next m dy hm =>
      simp only [] at h
      split_ifs at h
      injection h with h2
      subst h2
      rfl
    next hm => exact absurd h (by simp)
  next => exact absurd h (by simp)

/-- C9 counterexample: a run whose (non-empty) filtered set came
entirely from textual `YYYY-MM-DD` inputs — so every `signup_date` is
at midnight — triggers pandas' column-level dates-only shortcut: the
written `signup_date` cell is the date-only `2024-10-20`, not the full
timestamp `2024-10-20 00:00:00` the claim asserts. -/
theorem signup_serialized_midnight_cex :
    parseSignupDateStr "2024-10-20" = some ⟨2024, 10, 20, 0⟩ ∧
    renderCsv [⟨5, "Recent", ⟨2024, 10, 20, 0⟩, "NL"⟩] =
      "customer_id,name,signup_date,country\n5,Recent,2024-10-20,NL\n" ∧
    ("2024-10-20" : String) ≠ "2024-10-20 00:00:00" := by
  refine ⟨rfl, rfl, by decide⟩

/-- C9 as amended: when the filtered set is non-empty and every
record's `signup_date` came from a textual `YYYY-MM-DD` input (hence is
at midnight), `to_csv` applies the dates-only column format: the output
has the header line followed by one line per record with the
`signup_date` cell in the input's date-only `YYYY-MM-DD` form; the full
`YYYY-MM-DD HH:MM:SS` rendering (a strictly different, longer line) is
used only when some value in the column has a non-midnight time
component. -/
theorem signup_serialized_dates_only (recs : List CustomerData)
    (hne : recs ≠ [])
    (htext : ∀ r ∈ recs, ∃ s, parseSignupDateStr s = some r.signup_date) :
    renderCsv recs =
      csvHeader ++ "\n" ++ String.join (recs.map (fun r => rowLine true r ++ "\n")) ∧
    ∀ r ∈ recs, r.signup_date.usec = 0 ∧ rowLine true r ≠ rowLine false r := by
  have hmid : ∀ r ∈ recs, r.signup_date.usec = 0 := by
    intro r hr
    obtain ⟨s, hs⟩ := htext r hr
    exact strptimeL_usec_zero (toCodes s) _ hs
  constructor
  · cases recs with
    | nil => exact absurd rfl hne
    | cons a t =>
        have hall : (a :: t).all (fun x => decide (x.signup_date.usec = 0)) = true := by
          rw [List.all_eq_true]
          intro x hx
          simpa using hmid x hx
        simp only [renderCsv, hall]
  · intro r hr
    refine ⟨hmid r hr, ?_⟩
    have hTS : renderTS r.signup_date = renderDate10 r.signup_date ++ " 00:00:00" := by
      unfold renderTS
      rw [hmid r hr]
      rw [show (" " ++ renderTime 0 : String) = " 00:00:00" from rfl]
    intro heq
    simp only [rowLine, Bool.cond_true, Bool.cond_false] at heq
    rw [hTS] at heq
    have hl := congrArg String.length heq
    simp only [String.length_append] at hl
    have h9 : (" 00:00:00" : String).length = 9 := rfl
    omega

/-- Closed instance of the amended C9: a record parsed from
"2024-10-20" is written date-only, and the date-only line differs from
the full-timestamp line. -/
theorem signup_serialized_dates_only_w :
    renderCsv [⟨5, "Recent", ⟨2024, 10, 20, 0⟩, "NL"⟩] =
      csvHeader ++ "\n" ++
        String.join ([⟨5, "Recent", ⟨2024, 10, 20, 0⟩, "NL"⟩].map
          (fun r => rowLine true r ++ "\n")) ∧
    ∀ r ∈ ([⟨5, "Recent", ⟨2024, 10, 20, 0⟩, "NL"⟩] : List CustomerData),
      r.signup_date.usec = 0 ∧ rowLine true r ≠ rowLine false r :=
  signup_serialized_dates_only [⟨5, "Recent", ⟨2024, 10, 20, 0⟩, "NL"⟩]
    (by decide)
    (by
      intro r hr
      rw [List.mem_singleton] at hr
      subst hr
      exact ⟨"2024-10-20", by rfl⟩)

/-- Every month has at most 31 days. -/
theorem daysInMonth_le31 (y m : Nat) : daysInMonth y m ≤ 31 := by
  unfold daysInMonth
  split_ifs <;> omega

/-- A two-digit day in 1..31 is accepted by the day field of the
`strptime` regex. -/
theorem dayEnd_two (g i : Nat) (hg : isDig g) (hi : isDig i)
    (h1 : 1 ≤ 10 * (g - 48) + (i - 48)) (h31 : 10 * (g - 48) + (i - 48) ≤ 31) :
    dayEnd [g, i] = some (10 * (g - 48) + (i - 48)) := by
  obtain ⟨hg1, hg2⟩ := hg
  obtain ⟨hi1, hi2⟩ := hi
  interval_cases g <;> interval_cases i <;> first | (exfalso; omega) | decide

/-- A zero-padded month in 01..12, `-`, and a two-digit day in 01..31
are accepted by the month/day part of the `strptime` regex. -/
theorem monthDashDayEnd_strict (e f g i : Nat) (he : isDig e) (hf : isDig f)
    (hg : isDig g) (hi : isDig i)
    (hm1 : 1 ≤ 10 * (e - 48) + (f - 48)) (hm12 : 10 * (e - 48) + (f - 48) ≤ 12)
    (hd1 : 1 ≤ 10 * (g - 48) + (i - 48)) (hd31 : 10 * (g - 48) + (i - 48) ≤ 31) :
    monthDashDayEnd [e, f, 45, g, i] =
      some (10 * (e - 48) + (f - 48), 10 * (g - 48) + (i - 48)) := by
  have hday := dayEnd_two g i hg hi hd1 hd31
  obtain ⟨he1, he2⟩ := he
  obtain ⟨hf1, hf2⟩ := hf
  interval_cases e
  all_goals try (exfalso; omega)
  · have hf49 : 49 ≤ f := by omega
    simp only [monthDashDayEnd]
    rw [if_pos ⟨hf49, hf2⟩]
    simp [hday, Prod.ext_iff]
  · have hf50 : f ≤ 50 := by omega
    simp only [monthDashDayEnd]
    rw [if_pos ⟨hf1, hf50⟩]
    simp [hday, Prod.ext_iff]

/-- Every string in strict `YYYY-MM-DD` form denoting a real calendar
date is parsed by the `strptime('%Y-%m-%d')` model, to that date. -/
theorem readStrict_imp_strptime (l : List Nat) (dt : DateTime)
    (h : readStrict l = some dt) : strptimeL l = some dt := by
  unfold readStrict at h
  split at h
  next a b c d e f g i =>
    simp only [] at h
    split_ifs at h with hdig hval
    injection h with h2
    subst h2
    obtain ⟨ha, hb, hc, hd, he, hf, hg, hi⟩ := hdig
    obtain ⟨hy1, hm1, hm12, hd1, hdmon⟩ := hval
    have hd31 : 10 * (g - 48) + (i - 48) ≤ 31 :=
      le_trans hdmon (daysInMonth_le31 _ _)
    simp only [strptimeL]
    rw [if_pos ⟨ha, hb, hc, hd⟩]
    rw [monthDashDayEnd_strict e f g i he hf hg hi hm1 hm12 hd1 hd31]
    simp only []
    rw [if_pos ⟨hy1, hdmon⟩]
  next => exact absurd h (by simp)

/-- C4 counterexample: the string "2024-1-5" does not match the exact
format `YYYY-MM-DD` (month and day are not zero-padded), yet
`strptime('%Y-%m-%d')` — and hence signup-date validation — accepts it,
parsing it to January 5, 2024.  So validation does not succeed *exactly*
on the strings matching the format. -/
theorem date_format_strictness_cex :
    parseSignupDateStr "2024-1-5" = some ⟨2024, 1, 5, 0⟩ ∧
      matchesYYYYMMDD "2024-1-5" = false := by
  constructor
  · rfl
  · rfl

/-- C4 as amended: every strict `YYYY-MM-DD` string denoting a real
calendar date is accepted and parses to that date ("2024-01-15" →
January 15, 2024); a wrong separator such as "2024/01/15" is rejected;
but zero-padding is not required — `strptime` also accepts one-digit
months and days such as "2024-1-5"; and a signup_date value that is
already a structured date/time is accepted unchanged. -/
theorem date_format_lenient :
    (∀ (l : List Nat) (dt : DateTime), readStrict l = some dt → strptimeL l = some dt) ∧
    (∀ dt : DateTime, parse_signup_date (.rdate dt) = some dt) ∧
    parseSignupDateStr "2024-01-15" = some ⟨2024, 1, 15, 0⟩ ∧
    parseSignupDateStr "2024/01/15" = none ∧
    parseSignupDateStr "2024-1-5" = some ⟨2024, 1, 5, 0⟩ :=
  ⟨readStrict_imp_strptime, fun _ => rfl, rfl, rfl, rfl⟩

/-- Closed instance of the amended C4: the strict match "2026-02-28"
parses, via the general implication, to February 28, 2026. -/
theorem date_format_lenient_w :
    strptimeL (toCodes "2026-02-28") = some ⟨2026, 2, 28, 0⟩ :=
  date_format_lenient.1 (toCodes "2026-02-28") ⟨2026, 2, 28, 0⟩ (by rfl)
